import Mathlib

/-!
Shallow embedding of the OAuth session and CSRF-state management subsystem of
the Zoom-Alert repository (src/oauth.go and the client-credentials token path
of src/zoom.go), together with theorems settling the specification claims.

Modelling conventions:
* Time instants are integers (seconds).  Go's `time.Now().Before(t)` is
  `now < t`, `time.Now().After(t)` is `now > t`.
* The Go map `stateStore map[string]StateInfo` is modelled as the partial
  function `String → Option StateInfo`; Go `delete` and insertion are
  pointwise updates.
* Network I/O is modelled by an oracle argument (`NetOutcome`) describing the
  transport-level outcome of the single HTTP request an operation issues:
  either the request failed in flight, or a response with a status code and a
  parse result for its JSON body came back.  Each embedded operation also
  reports whether it reached the point of issuing a request, so that
  "performs no network call" claims are statable.
* Randomness (`crypto/rand` in `GenerateState`) is an oracle argument
  `Option String`: `none` models a failing random source, `some s` models a
  successful draw whose base64url encoding is `s`.
* Token persistence (`SaveTokens`) is modelled by a `saveOk : Bool` oracle
  and an explicit `persisted : Option TokenStore` slot; the Go code logs and
  ignores a failing save, which the embedding mirrors.
-/

namespace ZoomAlert

/-- The distinct error outcomes produced by the embedded operations, one
constructor per distinct `fmt.Errorf` site (or family of sites) in the Go
code.  The spec names `StateMissingOrExpired` for both the
"invalid or expired state parameter" and "state parameter has expired"
messages, `MalformedTokenResponse` for decode failures and the
"no access token received in response" check, and `AuthorizationRequired`
for "no valid user access token available, authorization required". -/
inductive OAuthErr where
  /-- "state parameter is required" -/
  | stateRequired
  /-- "invalid or expired state parameter" -/
  | invalidOrExpiredState
  /-- "state parameter has expired" -/
  | stateExpired
  /-- "failed to generate random state" -/
  | randFailed
  /-- "authorization code is required" -/
  | codeRequired
  /-- request construction or transport failure -/
  | requestFailed
  /-- non-200 response status -/
  | httpStatus (status : Int)
  /-- JSON body failed to decode -/
  | decodeFailed
  /-- "no access token received in response" -/
  | noAccessToken
  /-- "no valid user access token available, authorization required" -/
  | authorizationRequired
  /-- "client credentials not configured" (GetChatbotToken) -/
  | chatbotCredentialsMissing
  /-- "failed to read token file" -/
  | readFailed
  /-- "failed to unmarshal tokens" -/
  | unmarshalFailed
  deriving DecidableEq, Repr

/-- The spec's `StateMissingOrExpired` error kind covers both state-path
failure messages of `ValidateState` past the empty-parameter guard. -/
def OAuthErr.isStateMissingOrExpired : OAuthErr → Bool
  | .invalidOrExpiredState => true
  | .stateExpired => true
  | _ => false

/-- The configuration fields of `Config` consumed by the token operations. -/
structure Config where
  ZoomClientID : String
  ZoomClientSecret : String
  ZoomRedirectURI : String
  deriving DecidableEq, Repr

/-- The mutable user-token fields of `OAuthService`
(`userAccessToken`, `userRefreshToken`, `userExpiresAt`). -/
structure TokenRecord where
  userAccessToken : String
  userRefreshToken : String
  userExpiresAt : Int
  deriving DecidableEq, Repr

/-- The zero value of the token fields at `OAuthService` construction. -/
def emptyRecord : TokenRecord := ⟨"", "", 0⟩

/-- `tokenResponse`: the parsed JSON body of a token-endpoint response. -/
structure tokenResponse where
  AccessToken : String
  TokenType : String
  ExpiresIn : Int
  Scope : String
  RefreshToken : String
  deriving DecidableEq, Repr

/-- `TokenStore`: the persisted projection of the token record. -/
structure TokenStore where
  AccessToken : String
  RefreshToken : String
  ExpiresAt : Int
  deriving DecidableEq, Repr

/-- The `TokenStore` written by `SaveTokens` from the current record. -/
def toTokenStore (r : TokenRecord) : TokenStore :=
  ⟨r.userAccessToken, r.userRefreshToken, r.userExpiresAt⟩

/-- Transport-level outcome of the single token-endpoint request an
operation issues: in-flight failure, or a response carrying a status code
and the parse result of its body (`none` = body not valid JSON for
`tokenResponse`). -/
inductive NetOutcome where
  | reqFail
  | resp (status : Int) (parsed : Option tokenResponse)
  deriving DecidableEq, Repr

/-- Result of `ExchangeCodeForToken`: the returned error (if any), the
token record and the persisted slot after the call, and whether the
operation reached the point of issuing its network request. -/
structure ExchangeResult where
  result : Except OAuthErr Unit
  record : TokenRecord
  persisted : Option TokenStore
  netAttempted : Bool
  deriving Repr

/-- `ExchangeCodeForToken` (src/oauth.go lines 89-155).  The `cfg`
credentials only feed the Basic-auth header and form body of the request,
which the `net` oracle abstracts; the Go code performs no check on them.
On success the record is overwritten with the response's access token,
refresh token and `now + (ExpiresIn - 60)` expiry, and a save is attempted
whose failure (`saveOk = false`) is logged and ignored. -/
def ExchangeCodeForToken (_cfg : Config) (rec : TokenRecord)
    (persisted : Option TokenStore) (code : String) (now : Int)
    (net : NetOutcome) (saveOk : Bool) : ExchangeResult :=
  if code = "" then ⟨.error .codeRequired, rec, persisted, false⟩
  else
    match net with
    | .reqFail => ⟨.error .requestFailed, rec, persisted, true⟩
    | .resp status parsed =>
      if status ≠ 200 then ⟨.error (.httpStatus status), rec, persisted, true⟩
      else
        match parsed with
        | none => ⟨.error .decodeFailed, rec, persisted, true⟩
        | some tr =>
          if tr.AccessToken = "" then
            ⟨.error .noAccessToken, rec, persisted, true⟩
          else
            let rec' : TokenRecord :=
              ⟨tr.AccessToken, tr.RefreshToken, now + (tr.ExpiresIn - 60)⟩
            ⟨.ok (), rec',
             if saveOk then some (toTokenStore rec') else persisted, true⟩

/-- Result of `refreshUserToken`: the returned access token or error, the
record and persisted slot after the call.  The operation always issues its
network request (no guard precedes it). -/
structure RefreshResult where
  result : Except OAuthErr String
  record : TokenRecord
  persisted : Option TokenStore
  deriving Repr

/-- `refreshUserToken` (src/oauth.go lines 173-225).  Unlike
`ExchangeCodeForToken`, there is no check that the parsed response carries
a non-empty access token: the response's `AccessToken` is stored and
returned as-is.  A non-empty response refresh token replaces the stored
one; an empty one leaves it unchanged.  A failing save is logged and
ignored. -/
def refreshUserToken (_cfg : Config) (rec : TokenRecord)
    (persisted : Option TokenStore) (now : Int) (net : NetOutcome)
    (saveOk : Bool) : RefreshResult :=
  match net with
  | .reqFail => ⟨.error .requestFailed, rec, persisted⟩
  | .resp status parsed =>
    if status ≠ 200 then ⟨.error (.httpStatus status), rec, persisted⟩
    else
      match parsed with
      | none => ⟨.error .decodeFailed, rec, persisted⟩
      | some tr =>
        let rec' : TokenRecord :=
          ⟨tr.AccessToken,
           if tr.RefreshToken ≠ "" then tr.RefreshToken
           else rec.userRefreshToken,
           now + (tr.ExpiresIn - 60)⟩
        ⟨.ok rec'.userAccessToken, rec',
         if saveOk then some (toTokenStore rec') else persisted⟩

/-- Result of `GetUserAccessToken`: the token or error, the record and
persisted slot after the call, and how many network requests were issued
(0 on the cached and no-refresh-token paths, 1 on the refresh path). -/
structure GetTokenResult where
  result : Except OAuthErr String
  record : TokenRecord
  persisted : Option TokenStore
  netRequests : Nat
  deriving Repr

/-- `GetUserAccessToken` (src/oauth.go lines 158-170): return the cached
token if it is non-empty and `now` is strictly before the stored expiry;
otherwise refresh if a refresh token is present; otherwise fail with the
authorization-required error. -/
def GetUserAccessToken (cfg : Config) (rec : TokenRecord)
    (persisted : Option TokenStore) (now : Int) (net : NetOutcome)
    (saveOk : Bool) : GetTokenResult :=
  if rec.userAccessToken ≠ "" ∧ now < rec.userExpiresAt then
    ⟨.ok rec.userAccessToken, rec, persisted, 0⟩
  else if rec.userRefreshToken ≠ "" then
    let r := refreshUserToken cfg rec persisted now net saveOk
    ⟨r.result, r.record, r.persisted, 1⟩
  else ⟨.error .authorizationRequired, rec, persisted, 0⟩

/-- `StateInfo`: per-state metadata in the CSRF state table. -/
structure StateInfo where
  CreatedAt : Int
  ExpiresAt : Int
  deriving DecidableEq, Repr

/-- The CSRF state table `stateStore map[string]StateInfo`. -/
def StateStore : Type := String → Option StateInfo

/-- The empty state table of a freshly constructed service. -/
def emptyStateStore : StateStore := fun _ => none

/-- `cleanupExpiredStates` (src/oauth.go lines 283-290): remove every entry
whose `ExpiresAt` is strictly before `now` (Go: `now.After(info.ExpiresAt)`). -/
def cleanupExpiredStates (now : Int) (st : StateStore) : StateStore :=
  fun s =>
    match st s with
    | some info => if now > info.ExpiresAt then none else some info
    | none => none

/-- The state validity window: 10 minutes, in seconds. -/
def tenMinutes : Int := 600

/-- `GenerateState` (src/oauth.go lines 228-251).  `randState` is the
outcome of the secure random draw (`none` = `rand.Read` failed, in which
case the function returns before touching the table).  On success the
table is swept of expired entries and the new state is recorded with a
10-minute expiry. -/
def GenerateState (randState : Option String) (now : Int) (st : StateStore) :
    (Except OAuthErr String) × StateStore :=
  match randState with
  | none => (.error .randFailed, st)
  | some state =>
    let st1 := cleanupExpiredStates now st
    (.ok state,
     fun s => if s = state then some ⟨now, now + tenMinutes⟩ else st1 s)

/-- `ValidateState` (src/oauth.go lines 254-280).  An empty parameter fails
before touching the table.  Otherwise the table is swept of expired
entries, the state is looked up, a still-expired hit is deleted and fails,
and a valid hit is deleted (consumed) and succeeds. -/
def ValidateState (state : String) (now : Int) (st : StateStore) :
    (Except OAuthErr Unit) × StateStore :=
  if state = "" then (.error .stateRequired, st)
  else
    let st1 := cleanupExpiredStates now st
    match st1 state with
    | none => (.error .invalidOrExpiredState, st1)
    | some info =>
      if now > info.ExpiresAt then
        (.error .stateExpired, fun s => if s = state then none else st1 s)
      else
        (.ok (), fun s => if s = state then none else st1 s)

/-- Outcome of reading the token file in `LoadTokens`. -/
inductive LoadOutcome where
  | notExist
  | readFail
  | unmarshalFail
  | content (store : TokenStore)
  deriving DecidableEq, Repr

/-- `LoadTokens` (src/oauth.go lines 333-360): a missing file is not an
error; read/parse failures are errors that leave the record untouched; a
parsed store is copied into the record only when `now` is strictly before
its `ExpiresAt`, and otherwise the record is left untouched (so none of
the persisted fields, the refresh token included, is loaded). -/
def LoadTokens (rec : TokenRecord) (outcome : LoadOutcome) (now : Int) :
    (Except OAuthErr Unit) × TokenRecord :=
  match outcome with
  | .notExist => (.ok (), rec)
  | .readFail => (.error .readFailed, rec)
  | .unmarshalFail => (.error .unmarshalFailed, rec)
  | .content store =>
    if now < store.ExpiresAt then
      (.ok (), ⟨store.AccessToken, store.RefreshToken, store.ExpiresAt⟩)
    else (.ok (), rec)

/-- Parsed JSON body of the client-credentials token response in
`GetChatbotToken`. -/
structure chatbotTokenResponse where
  AccessToken : String
  TokenType : String
  ExpiresIn : Int
  deriving DecidableEq, Repr

/-- Transport outcome for the client-credentials request. -/
inductive ChatbotNet where
  | reqFail
  | resp (status : Int) (parsed : Option chatbotTokenResponse)
  deriving DecidableEq, Repr

/-- Result of `GetChatbotToken`: the token or error, and whether a network
request was issued. -/
structure ChatbotResult where
  result : Except OAuthErr String
  netAttempted : Bool
  deriving Repr

/-- `GetChatbotToken` (src/zoom.go lines 220-265): fails fast with the
configuration error when either credential is empty, before any request;
otherwise performs the client-credentials request and returns the parsed
access token. -/
def GetChatbotToken (cfg : Config) (net : ChatbotNet) : ChatbotResult :=
  if cfg.ZoomClientID = "" ∨ cfg.ZoomClientSecret = "" then
    ⟨.error .chatbotCredentialsMissing, false⟩
  else
    match net with
    | .reqFail => ⟨.error .requestFailed, true⟩
    | .resp status parsed =>
      if status ≠ 200 then ⟨.error (.httpStatus status), true⟩
      else
        match parsed with
        | none => ⟨.error .decodeFailed, true⟩
        | some tr => ⟨.ok tr.AccessToken, true⟩

end ZoomAlert

namespace Claims

open ZoomAlert

/-- C2: for every token-record state, if the cached access token is
non-empty and `now` is strictly before the stored expiry, `GetUserAccessToken`
returns the cached token with no network request and no mutation of the
record or the persisted slot; otherwise, if a refresh token is present, it
issues exactly one refresh request and returns that refresh's outcome;
otherwise it fails with the authorization-required error and issues no
network request. -/
theorem C2_get_user_access_token_cases
    (cfg : Config) (rec : TokenRecord) (p : Option TokenStore) (now : Int)
    (net : NetOutcome) (saveOk : Bool) :
    (rec.userAccessToken ≠ "" ∧ now < rec.userExpiresAt →
      GetUserAccessToken cfg rec p now net saveOk
        = ⟨.ok rec.userAccessToken, rec, p, 0⟩) ∧
    (¬ (rec.userAccessToken ≠ "" ∧ now < rec.userExpiresAt) →
      rec.userRefreshToken ≠ "" →
      GetUserAccessToken cfg rec p now net saveOk
        = ⟨(refreshUserToken cfg rec p now net saveOk).result,
           (refreshUserToken cfg rec p now net saveOk).record,
           (refreshUserToken cfg rec p now net saveOk).persisted, 1⟩) ∧
    (¬ (rec.userAccessToken ≠ "" ∧ now < rec.userExpiresAt) →
      rec.userRefreshToken = "" →
      GetUserAccessToken cfg rec p now net saveOk
        = ⟨.error .authorizationRequired, rec, p, 0⟩) := by
  refine ⟨fun h => ?_, fun h hr => ?_, fun h hr => ?_⟩
  · simp [GetUserAccessToken, h]
  · simp [GetUserAccessToken, h, hr]
  · simp [GetUserAccessToken, h, hr]

/-- Witness for C2 at concrete inputs: a valid cached token is returned
without a network request, and an empty record fails with the
authorization-required error. -/
theorem C2_witness :
    GetUserAccessToken ⟨"i", "s", "u"⟩ ⟨"tok", "", 10⟩ none 5 .reqFail true
      = ⟨.ok "tok", ⟨"tok", "", 10⟩, none, 0⟩ ∧
    GetUserAccessToken ⟨"i", "s", "u"⟩ ⟨"", "", 0⟩ none 5 .reqFail true
      = ⟨.error .authorizationRequired, ⟨"", "", 0⟩, none, 0⟩ :=
  ⟨(C2_get_user_access_token_cases ⟨"i", "s", "u"⟩ ⟨"tok", "", 10⟩ none 5
      .reqFail true).1 ⟨by decide, by decide⟩,
   (C2_get_user_access_token_cases ⟨"i", "s", "u"⟩ ⟨"", "", 0⟩ none 5
      .reqFail true).2.2 (by decide) rfl⟩

/-- C3 counterexample: the claim asserts `GetUserAccessToken` still returns
"X" when `now ≤ t0+3540`.  At `t0 = 0` the exchange of a response with
`expires_in = 3600` stores expiry 3540, and at `now = 3540` (which
satisfies `now ≤ t0+3540`) the cached-token check `now < expiry` is false
and, with no refresh token, the call fails with the
authorization-required error instead of returning "X". -/
theorem C3_counterexample :
    (3540 : Int) ≤ 0 + 3540 ∧
    (ExchangeCodeForToken ⟨"i", "s", "u"⟩ emptyRecord none "c" 0
        (.resp 200 (some ⟨"X", "bearer", 3600, "", ""⟩)) true).record
      = ⟨"X", "", 3540⟩ ∧
    (GetUserAccessToken ⟨"i", "s", "u"⟩ ⟨"X", "", 3540⟩ none 3540
        .reqFail true).result = .error .authorizationRequired :=
  ⟨by decide, by decide, rfl⟩

/-- C3 amended: after a successful exchange or refresh whose parsed
response carries `expires_in = E`, the stored expiry is `now + (E - 60)`;
for an exchange returning access token "X" with `expires_in = 3600` and no
refresh token, `GetUserAccessToken` returns "X" while `now < t0 + 3540`
and fails with the authorization-required error once `now ≥ t0 + 3540`
(the cached token is valid strictly before the stored expiry, not at it). -/
theorem C3_expiry_margin
    (cfg : Config) (rec : TokenRecord) (p p2 : Option TokenStore)
    (code : String) (t0 now : Int) (tr : tokenResponse)
    (saveOk saveOk2 : Bool) (net2 : NetOutcome)
    (hcode : code ≠ "") (htok : tr.AccessToken ≠ "") :
    (ExchangeCodeForToken cfg rec p code t0 (.resp 200 (some tr))
        saveOk).record.userExpiresAt = t0 + (tr.ExpiresIn - 60) ∧
    (refreshUserToken cfg rec p t0 (.resp 200 (some tr))
        saveOk).record.userExpiresAt = t0 + (tr.ExpiresIn - 60) ∧
    (now < t0 + 3540 →
      GetUserAccessToken cfg
          (ExchangeCodeForToken cfg rec p code t0
            (.resp 200 (some ⟨"X", tr.TokenType, 3600, tr.Scope, ""⟩))
            saveOk).record p2 now net2 saveOk2
        = ⟨.ok "X", ⟨"X", "", t0 + 3540⟩, p2, 0⟩) ∧
    (t0 + 3540 ≤ now →
      GetUserAccessToken cfg
          (ExchangeCodeForToken cfg rec p code t0
            (.resp 200 (some ⟨"X", tr.TokenType, 3600, tr.Scope, ""⟩))
            saveOk).record p2 now net2 saveOk2
        = ⟨.error .authorizationRequired, ⟨"X", "", t0 + 3540⟩, p2, 0⟩) := by
  have hrec : (ExchangeCodeForToken cfg rec p code t0
      (.resp 200 (some ⟨"X", tr.TokenType, 3600, tr.Scope, ""⟩))
      saveOk).record = ⟨"X", "", t0 + 3540⟩ := by
    simp [ExchangeCodeForToken, hcode]
  refine ⟨?_, ?_, fun h => ?_, fun h => ?_⟩
  · simp [ExchangeCodeForToken, hcode, htok]
  · simp [refreshUserToken]
  · rw [hrec]; simp [GetUserAccessToken, h]
  · rw [hrec]; simp [GetUserAccessToken, h, not_lt.mpr h]

/-- Witness for C3 amended at concrete inputs. -/
theorem C3_expiry_margin_witness :
    (ExchangeCodeForToken ⟨"i", "s", "u"⟩ emptyRecord none "c" 0
        (.resp 200 (some ⟨"A", "bearer", 3600, "", ""⟩))
        true).record.userExpiresAt = 0 + (3600 - 60) ∧
    GetUserAccessToken ⟨"i", "s", "u"⟩
        (ExchangeCodeForToken ⟨"i", "s", "u"⟩ emptyRecord none "c" 0
          (.resp 200 (some ⟨"X", "bearer", 3600, "", ""⟩)) true).record
        none 3539 .reqFail true
      = ⟨.ok "X", ⟨"X", "", 0 + 3540⟩, none, 0⟩ :=
  ⟨(C3_expiry_margin ⟨"i", "s", "u"⟩ emptyRecord none none "c" 0 3539
      ⟨"A", "bearer", 3600, "", ""⟩ true true .reqFail
      (by decide) (by decide)).1,
   (C3_expiry_margin ⟨"i", "s", "u"⟩ emptyRecord none none "c" 0 3539
      ⟨"A", "bearer", 3600, "", ""⟩ true true .reqFail
      (by decide) (by decide)).2.2.1 (by decide)⟩

/-- C4 counterexample: the claim asserts the refresh operation fails with a
malformed-response error and leaves the record unchanged whenever the
parseable response lacks an access token.  On a 200 response parsing to an
empty access token, `refreshUserToken` instead succeeds (returning the
empty string) and overwrites the record: the access token becomes empty
and the expiry is recomputed. -/
theorem C4_counterexample :
    (refreshUserToken ⟨"i", "s", "u"⟩ ⟨"old", "r", 100⟩ none 500
        (.resp 200 (some ⟨"", "bearer", 3600, "", ""⟩)) false).result
      = .ok "" ∧
    (refreshUserToken ⟨"i", "s", "u"⟩ ⟨"old", "r", 100⟩ none 500
        (.resp 200 (some ⟨"", "bearer", 3600, "", ""⟩)) false).record
      = ⟨"", "r", 4040⟩ ∧
    (⟨"", "r", 4040⟩ : TokenRecord) ≠ ⟨"old", "r", 100⟩ :=
  ⟨rfl, by decide, by decide⟩

/-- C4 amended: on a parseable 200 response lacking an access token,
`ExchangeCodeForToken` fails with the malformed-response error and leaves
the record and the persisted slot unchanged, and both operations fail and
leave them unchanged on an unparseable 200 response; `refreshUserToken`
performs no access-token validation: on such a response it succeeds,
returning and storing the empty access token and recomputing the expiry
(leaving only the refresh-token preservation rule in force). -/
theorem C4_malformed_response_paths
    (cfg : Config) (rec : TokenRecord) (p : Option TokenStore)
    (code : String) (now : Int) (tr : tokenResponse) (saveOk : Bool)
    (hcode : code ≠ "") (hempty : tr.AccessToken = "") :
    ExchangeCodeForToken cfg rec p code now (.resp 200 (some tr)) saveOk
      = ⟨.error .noAccessToken, rec, p, true⟩ ∧
    ExchangeCodeForToken cfg rec p code now (.resp 200 none) saveOk
      = ⟨.error .decodeFailed, rec, p, true⟩ ∧
    refreshUserToken cfg rec p now (.resp 200 none) saveOk
      = ⟨.error .decodeFailed, rec, p⟩ ∧
    (refreshUserToken cfg rec p now (.resp 200 (some tr)) saveOk).result
      = .ok "" ∧
    (refreshUserToken cfg rec p now (.resp 200 (some tr)) saveOk).record
      = ⟨"", if tr.RefreshToken ≠ "" then tr.RefreshToken
            else rec.userRefreshToken,
         now + (tr.ExpiresIn - 60)⟩ := by
  refine ⟨?_, ?_, ?_, ?_, ?_⟩
  · simp [ExchangeCodeForToken, hcode, hempty]
  · simp [ExchangeCodeForToken, hcode]
  · simp [refreshUserToken]
  · simp [refreshUserToken, hempty]
  · simp [refreshUserToken, hempty]

/-- Witness for C4 amended at concrete inputs. -/
theorem C4_malformed_response_paths_witness :
    ExchangeCodeForToken ⟨"i", "s", "u"⟩ ⟨"old", "r", 100⟩ none "c" 500
        (.resp 200 (some ⟨"", "bearer", 3600, "", "r2"⟩)) true
      = ⟨.error .noAccessToken, ⟨"old", "r", 100⟩, none, true⟩ ∧
    (refreshUserToken ⟨"i", "s", "u"⟩ ⟨"old", "r", 100⟩ none 500
        (.resp 200 (some ⟨"", "bearer", 3600, "", "r2"⟩)) true).record
      = ⟨"", "r2", 4040⟩ :=
  ⟨(C4_malformed_response_paths ⟨"i", "s", "u"⟩ ⟨"old", "r", 100⟩ none "c"
      500 ⟨"", "bearer", 3600, "", "r2"⟩ true (by decide) rfl).1,
   by
    rw [(C4_malformed_response_paths ⟨"i", "s", "u"⟩ ⟨"old", "r", 100⟩ none
      "c" 500 ⟨"", "bearer", 3600, "", "r2"⟩ true (by decide) rfl).2.2.2.2]
    decide⟩

/-- C5 counterexample: the claim asserts that with empty application
credentials every `ExchangeCodeForToken` call with a non-empty code fails
with a configuration error before any network request.  In the code
neither `ExchangeCodeForToken` nor `refreshUserToken` inspects the
credentials: with empty credentials and code "c" the exchange still issues
its network request and surfaces the transport outcome, not a
configuration error. -/
theorem C5_counterexample :
    (ExchangeCodeForToken ⟨"", "", ""⟩ emptyRecord none "c" 0
        .reqFail true).netAttempted = true ∧
    (ExchangeCodeForToken ⟨"", "", ""⟩ emptyRecord none "c" 0
        .reqFail true).result = .error .requestFailed :=
  ⟨rfl, rfl⟩

/-- C5 amended: only `GetChatbotToken` fails fast on empty credentials,
with the configuration error and no network request; `ExchangeCodeForToken`
and `refreshUserToken` perform no credentials check: with a non-empty code
the exchange reaches its network request, and the behavior of both is
entirely independent of the credential fields. -/
theorem C5_credentials_check
    (cfg cfg2 : Config) (rec : TokenRecord) (p : Option TokenStore)
    (code : String) (now : Int) (cnet : ChatbotNet) (net : NetOutcome)
    (saveOk : Bool)
    (hempty : cfg.ZoomClientID = "" ∨ cfg.ZoomClientSecret = "") :
    GetChatbotToken cfg cnet
      = ⟨.error .chatbotCredentialsMissing, false⟩ ∧
    (code ≠ "" →
      (ExchangeCodeForToken cfg rec p code now net saveOk).netAttempted
        = true) ∧
    ExchangeCodeForToken cfg rec p code now net saveOk
      = ExchangeCodeForToken cfg2 rec p code now net saveOk ∧
    refreshUserToken cfg rec p now net saveOk
      = refreshUserToken cfg2 rec p now net saveOk := by
  refine ⟨?_, fun hc => ?_, rfl, rfl⟩
  · simp [GetChatbotToken, hempty]
  · unfold ExchangeCodeForToken
    rw [if_neg hc]
    cases net with
    | reqFail => rfl
    | resp status parsed =>
      by_cases hst : status ≠ 200
      · simp only [if_pos hst]
      · simp only [if_neg hst]
        cases parsed with
        | none => rfl
        | some tr =>
          by_cases hat : tr.AccessToken = ""
          · simp only [if_pos hat]
          · simp only [if_neg hat]

/-- Witness for C5 amended at concrete inputs. -/
theorem C5_credentials_check_witness :
    GetChatbotToken ⟨"", "", "u"⟩ .reqFail
      = ⟨.error .chatbotCredentialsMissing, false⟩ ∧
    (ExchangeCodeForToken ⟨"", "", "u"⟩ emptyRecord none "c" 0
        .reqFail true).netAttempted = true :=
  ⟨(C5_credentials_check ⟨"", "", "u"⟩ ⟨"x", "y", "u"⟩ emptyRecord none "c"
      0 .reqFail .reqFail true (Or.inl rfl)).1,
   (C5_credentials_check ⟨"", "", "u"⟩ ⟨"x", "y", "u"⟩ emptyRecord none "c"
      0 .reqFail .reqFail true (Or.inl rfl)).2.1 (by decide)⟩

/-- C7: a refresh on a 200 response that parses succeeds, and the stored
refresh token afterwards equals the prior one when the response's refresh
token is empty and is replaced by the response's refresh token when it is
non-empty. -/
theorem C7_refresh_preserves_refresh_token
    (cfg : Config) (rec : TokenRecord) (p : Option TokenStore) (now : Int)
    (tr : tokenResponse) (saveOk : Bool) :
    (refreshUserToken cfg rec p now (.resp 200 (some tr)) saveOk).result
      = .ok tr.AccessToken ∧
    (tr.RefreshToken = "" →
      (refreshUserToken cfg rec p now
        (.resp 200 (some tr)) saveOk).record.userRefreshToken
        = rec.userRefreshToken) ∧
    (tr.RefreshToken ≠ "" →
      (refreshUserToken cfg rec p now
        (.resp 200 (some tr)) saveOk).record.userRefreshToken
        = tr.RefreshToken) := by
  refine ⟨?_, fun h => ?_, fun h => ?_⟩
  · simp [refreshUserToken]
  · simp [refreshUserToken, h]
  · simp [refreshUserToken, h]

/-- Witness for C7 at concrete inputs: a response omitting the refresh
token preserves "r", a response carrying "r2" replaces it. -/
theorem C7_witness :
    (refreshUserToken ⟨"i", "s", "u"⟩ ⟨"old", "r", 100⟩ none 500
        (.resp 200 (some ⟨"new", "bearer", 3600, "", ""⟩))
        true).record.userRefreshToken = "r" ∧
    (refreshUserToken ⟨"i", "s", "u"⟩ ⟨"old", "r", 100⟩ none 500
        (.resp 200 (some ⟨"new", "bearer", 3600, "", "r2"⟩))
        true).record.userRefreshToken = "r2" :=
  ⟨(C7_refresh_preserves_refresh_token ⟨"i", "s", "u"⟩ ⟨"old", "r", 100⟩
      none 500 ⟨"new", "bearer", 3600, "", ""⟩ true).2.1 rfl,
   (C7_refresh_preserves_refresh_token ⟨"i", "s", "u"⟩ ⟨"old", "r", 100⟩
      none 500 ⟨"new", "bearer", 3600, "", "r2"⟩ true).2.2 (by decide)⟩

/-- C8: when the network and parse steps of an exchange or refresh
succeed, a failing save (`saveOk = false`) leaves the operation's result
and the in-memory record identical to the successful-save run: the
exchange still returns success, the refresh still returns the new access
token, and the record holds the newly obtained values in both cases. -/
theorem C8_persist_failure_is_ignored
    (cfg : Config) (rec : TokenRecord) (p : Option TokenStore)
    (code : String) (now : Int) (tr : tokenResponse)
    (hcode : code ≠ "") (htok : tr.AccessToken ≠ "") :
    (ExchangeCodeForToken cfg rec p code now
        (.resp 200 (some tr)) false).result = .ok () ∧
    (ExchangeCodeForToken cfg rec p code now
        (.resp 200 (some tr)) false).record
      = (ExchangeCodeForToken cfg rec p code now
          (.resp 200 (some tr)) true).record ∧
    (ExchangeCodeForToken cfg rec p code now
        (.resp 200 (some tr)) false).record
      = ⟨tr.AccessToken, tr.RefreshToken, now + (tr.ExpiresIn - 60)⟩ ∧
    (refreshUserToken cfg rec p now (.resp 200 (some tr)) false).result
      = .ok tr.AccessToken ∧
    (refreshUserToken cfg rec p now (.resp 200 (some tr)) false).record
      = (refreshUserToken cfg rec p now (.resp 200 (some tr)) true).record := by
  refine ⟨?_, ?_, ?_, ?_, ?_⟩
  · simp [ExchangeCodeForToken, hcode, htok]
  · simp [ExchangeCodeForToken, hcode, htok]
  · simp [ExchangeCodeForToken, hcode, htok]
  · simp [refreshUserToken]
  · simp [refreshUserToken]

/-- Witness for C8 at concrete inputs. -/
theorem C8_witness :
    (ExchangeCodeForToken ⟨"i", "s", "u"⟩ emptyRecord none "c" 0
        (.resp 200 (some ⟨"X", "bearer", 3600, "", "r"⟩)) false).result
      = .ok () ∧
    (refreshUserToken ⟨"i", "s", "u"⟩ ⟨"old", "r", 100⟩ none 500
        (.resp 200 (some ⟨"X", "bearer", 3600, "", ""⟩)) false).result
      = .ok "X" :=
  ⟨(C8_persist_failure_is_ignored ⟨"i", "s", "u"⟩ emptyRecord none "c" 0
      ⟨"X", "bearer", 3600, "", "r"⟩ (by decide) (by decide)).1,
   (C8_persist_failure_is_ignored ⟨"i", "s", "u"⟩ ⟨"old", "r", 100⟩ none
      "c" 500 ⟨"X", "bearer", 3600, "", ""⟩ (by decide) (by decide)).2.2.2.1⟩

/-- C10 (implicit): when the persisted store's expiry is not strictly in
the future, `LoadTokens` leaves the freshly constructed (empty) record
untouched — the persisted refresh token is discarded with the rest — and
`GetUserAccessToken` on that empty record then fails with the
authorization-required error without issuing a network request, instead
of attempting a refresh with the persisted refresh token. -/
theorem C10_expired_persisted_record_discarded
    (store : TokenStore) (now later : Int) (cfg : Config)
    (p : Option TokenStore) (net : NetOutcome) (saveOk : Bool)
    (hexp : store.ExpiresAt ≤ now) :
    (LoadTokens emptyRecord (.content store) now).2 = emptyRecord ∧
    (GetUserAccessToken cfg emptyRecord p later net saveOk).result
      = .error .authorizationRequired ∧
    (GetUserAccessToken cfg emptyRecord p later net saveOk).netRequests
      = 0 := by
  refine ⟨?_, ?_, ?_⟩
  · simp [LoadTokens, not_lt.mpr hexp]
  · simp [GetUserAccessToken, emptyRecord]
  · simp [GetUserAccessToken, emptyRecord]

/-- Witness for C10 at concrete inputs: a persisted record carrying a
refresh token but an elapsed expiry is not loaded. -/
theorem C10_witness :
    (LoadTokens emptyRecord (.content ⟨"X", "r", 100⟩) 100).2
      = emptyRecord ∧
    (GetUserAccessToken ⟨"i", "s", "u"⟩ emptyRecord none 200 .reqFail
        true).result = .error .authorizationRequired :=
  ⟨(C10_expired_persisted_record_discarded ⟨"X", "r", 100⟩ 100 200
      ⟨"i", "s", "u"⟩ none .reqFail true (by decide)).1,
   (C10_expired_persisted_record_discarded ⟨"X", "r", 100⟩ 100 200
      ⟨"i", "s", "u"⟩ none .reqFail true (by decide)).2.1⟩

/-- C1: a state `s` issued by a successful `GenerateState` at `t0`
validates successfully when first presented before its 10-minute expiry,
and that call removes `s` from the table; absence of `s` is preserved by
issuing other states, by failing issuance, and by validating other
states (no re-issuance of the same string); and every `ValidateState s`
call on a table not containing `s` fails with the
"invalid or expired state parameter" error — the spec's
`StateMissingOrExpired` kind — and leaves `s` absent. -/
theorem C1_single_use_state
    (s : String) (t0 now : Int) (st : StateStore)
    (hs : s ≠ "") (hnow : now < t0 + tenMinutes) :
    ((ValidateState s now (GenerateState (some s) t0 st).2).1 = .ok () ∧
     (ValidateState s now (GenerateState (some s) t0 st).2).2 s = none) ∧
    (∀ (st2 : StateStore) (r : String) (t : Int), st2 s = none → r ≠ s →
      (GenerateState (some r) t st2).2 s = none ∧
      (GenerateState none t st2).2 s = none ∧
      (ValidateState r t st2).2 s = none) ∧
    (∀ (st2 : StateStore) (t : Int), st2 s = none →
      (ValidateState s t st2).1 = .error .invalidOrExpiredState ∧
      (ValidateState s t st2).2 s = none ∧
      OAuthErr.invalidOrExpiredState.isStateMissingOrExpired = true) := by
  have hne : ¬ now > t0 + tenMinutes := by omega
  refine ⟨?_, fun st2 r t h2 hr => ⟨?_, ?_, ?_⟩, fun st2 t h2 => ?_⟩
  · simp [ValidateState, GenerateState, cleanupExpiredStates, hs, hne]
  · simp [GenerateState, cleanupExpiredStates, Ne.symm hr, h2]
  · simp [GenerateState, h2]
  · by_cases hre : r = ""
    · simp [ValidateState, hre, h2]
    · simp only [ValidateState, if_neg hre]
      have hcl : cleanupExpiredStates t st2 s = none := by
        simp [cleanupExpiredStates, h2]
      cases hm : cleanupExpiredStates t st2 r with
      | none => simpa [hm] using hcl
      | some info =>
        by_cases hexp : t > info.ExpiresAt <;>
          simp [hm, hexp, Ne.symm hr, hcl]
  · constructor
    · simp [ValidateState, cleanupExpiredStates, hs, h2]
    · constructor
      · simp [ValidateState, cleanupExpiredStates, hs, h2]
      · rfl

/-- Witness for C1 at concrete inputs: a state issued at 0 and first
validated at 1 succeeds and is removed; re-validation on the resulting
table fails with the invalid-or-expired error. -/
theorem C1_witness :
    (ValidateState "abc" 1 (GenerateState (some "abc") 0
        emptyStateStore).2).1 = .ok () ∧
    (ValidateState "abc" 1 (GenerateState (some "abc") 0
        emptyStateStore).2).2 "abc" = none :=
  (C1_single_use_state "abc" 0 1 emptyStateStore (by decide)
    (by norm_num [tenMinutes])).1

/-- C6 counterexample: the claim asserts every `ValidateState` call sweeps
all entries whose expiry has passed.  `ValidateState` with the empty state
parameter returns on its guard before taking the lock and sweeping: an
entry that expired at 600 is still in the table after a call at time
1000. -/
theorem C6_counterexample :
    (1000 : Int) > 600 ∧
    (ValidateState "" 1000
        (fun x => if x = "old" then some ⟨0, 600⟩ else none)).2 "old"
      = some ⟨0, 600⟩ :=
  ⟨by decide, rfl⟩

/-- C6 amended: a state issued at `t0` and validated only after its
10-minute expiry fails with the "invalid or expired state parameter"
error and is removed from the table by that failed call; every successful
`GenerateState` call and every `ValidateState` call with a non-empty
state parameter leaves no entry whose expiry has passed in the table
(`ValidateState` with an empty parameter returns before sweeping); a
state issued at t=0 validates successfully at t=599s (9min59s) and fails
at t=601s (10min1s) with that error. -/
theorem C6_expired_state_purge
    (s r : String) (t0 now t : Int) (st : StateStore)
    (hs : s ≠ "") (hlate : now > t0 + tenMinutes) :
    ((ValidateState s now (GenerateState (some s) t0 st).2).1
        = .error .invalidOrExpiredState ∧
     (ValidateState s now (GenerateState (some s) t0 st).2).2 s = none) ∧
    (∀ x info, (GenerateState (some r) t st).2 x = some info →
      t ≤ info.ExpiresAt) ∧
    (r ≠ "" → ∀ x info, (ValidateState r t st).2 x = some info →
      t ≤ info.ExpiresAt) ∧
    (ValidateState "abc" 599 (GenerateState (some "abc") 0
        emptyStateStore).2).1 = .ok () ∧
    (ValidateState "def" 601 (GenerateState (some "def") 0
        emptyStateStore).2).1 = .error .invalidOrExpiredState := by
  refine ⟨?_, fun x info hx => ?_, fun hr x info hx => ?_, ?_, ?_⟩
  · simp [ValidateState, GenerateState, cleanupExpiredStates, hs, hlate]
  · by_cases hxr : x = r
    · subst hxr
      simp only [GenerateState, if_pos rfl] at hx
      have : info = (⟨t, t + tenMinutes⟩ : StateInfo) :=
        Option.some.inj hx.symm
      subst this
      simp [tenMinutes]
    · simp only [GenerateState, if_neg hxr, cleanupExpiredStates] at hx
      cases hst : st x with
      | none => simp [hst] at hx
      | some info2 =>
        simp only [hst] at hx
        by_cases hexp : t > info2.ExpiresAt
        · simp [hexp] at hx
        · simp only [if_neg hexp] at hx
          cases Option.some.inj hx
          omega
  · simp only [ValidateState, if_neg hr] at hx
    have hsweep : ∀ y i, cleanupExpiredStates t st y = some i →
        t ≤ i.ExpiresAt := by
      intro y i hy
      simp only [cleanupExpiredStates] at hy
      cases hsty : st y with
      | none => simp [hsty] at hy
      | some i2 =>
        simp only [hsty] at hy
        by_cases hexp : t > i2.ExpiresAt
        · simp [hexp] at hy
        · simp only [if_neg hexp] at hy
          cases Option.some.inj hy
          omega
    cases hm : cleanupExpiredStates t st r with
    | none =>
      simp only [hm] at hx
      exact hsweep x info hx
    | some info2 =>
      simp only [hm] at hx
      by_cases hexp : t > info2.ExpiresAt
      · simp only [if_pos hexp] at hx
        by_cases hxr : x = r
        · simp [hxr] at hx
        · simp only [if_neg hxr] at hx
          exact hsweep x info hx
      · simp only [if_neg hexp] at hx
        by_cases hxr : x = r
        · simp [hxr] at hx
        · simp only [if_neg hxr] at hx
          exact hsweep x info hx
  · rfl
  · rfl

/-- Witness for C6 amended at concrete inputs: a state issued at 0 and
validated at 601 fails and is removed. -/
theorem C6_witness :
    (ValidateState "s1" 601 (GenerateState (some "s1") 0
        emptyStateStore).2).1 = .error .invalidOrExpiredState ∧
    (ValidateState "s1" 601 (GenerateState (some "s1") 0
        emptyStateStore).2).2 "s1" = none :=
  (C6_expired_state_purge "s1" "r1" 0 601 0 emptyStateStore (by decide)
    (by norm_num [tenMinutes])).1

end Claims
